import Mathlib

/-!
# Verification of the englishflow-ai backend spec

Shallow embedding of the englishflow-ai Express backend (src/server.js and
the two unnamed variant files src/unnamed/part_000, src/unnamed/part_001)
together with proofs settling the frozen claims C1..C10.

The repository is a bag of near-duplicate server variants separated by
document markers.  Each endpoint is embedded as a pure function from the
request fields it destructures plus the upstream model's reply (an oracle
parameter) to the HTTP response it produces.  Platform builtins
(`JSON.parse`, the WHATWG `URL` constructor, `fetch`) are modelled
explicitly: `JSON.parse` as an executable JSON parser over `List Char`
(numbers read as exact rationals), `URL` as a parameter
`String → Option URL` (with a small concrete instance used for witnesses),
and `fetch`/cheerio as a transport oracle returning either the page's
metadata signals or a thrown error.
-/

/-- JavaScript JSON values as produced by `JSON.parse`: null, booleans,
numbers (modelled as exact rationals), strings, arrays and objects
(association lists in insertion order, duplicate keys collapsed the way
`JSON.parse` collapses them: last value wins, first position kept). -/
inductive JsValue where
  | null
  | bool (b : Bool)
  | num (q : Rat)
  | str (s : String)
  | arr (items : List JsValue)
  | obj (fields : List (String × JsValue))

/-- JavaScript truthiness of a parsed JSON value: `null`, `false`, `0` and
`""` are falsy; every array and object (including `[]` and the empty
object) is truthy. -/
def jsTruthy : JsValue → Bool
  | .null => false
  | .bool b => b
  | .num q => decide (q ≠ 0)
  | .str s => !s.isEmpty
  | .arr _ => true
  | .obj _ => true

/-- Property lookup on an object's field list (first match). -/
def lookupKey : List (String × JsValue) → String → Option JsValue
  | [], _ => none
  | (k0, v0) :: rest, k => if k0 = k then some v0 else lookupKey rest k

/-- Property lookup on a JSON value: defined on objects, `none` elsewhere. -/
def jsGet : JsValue → String → Option JsValue
  | .obj kvs, k => lookupKey kvs k
  | _, _ => none

/-- Assignment semantics shared by `JSON.parse`'s duplicate-key handling
and the object spread `\x7b...obj, translations\x7d`: an existing key keeps
its position and receives the new value, a fresh key is appended. -/
def insertKey : List (String × JsValue) → String → JsValue → List (String × JsValue)
  | [], k, v => [(k, v)]
  | (k0, v0) :: rest, k, v =>
      if k0 = k then (k0, v) :: rest else (k0, v0) :: insertKey rest k v

/-- Whitespace removed by `String.prototype.trim` (restricted to the
ASCII whitespace actually reachable here). -/
def jsWsChar (c : Char) : Bool :=
  c == ' ' || c == '\t' || c == '\n' || c == '\r' || c == '\x0b' || c == '\x0c'

/-- Model of `String.prototype.trim`. -/
def jsTrim (s : String) : String :=
  String.mk (((s.data.dropWhile jsWsChar).reverse.dropWhile jsWsChar).reverse)

/-- `String.prototype.toUpperCase` on one character (ASCII; the case pairs
relevant to the level tags and role names are all ASCII). -/
def asciiUpper (c : Char) : Char :=
  if 'a' ≤ c ∧ c ≤ 'z' then Char.ofNat (c.toNat - 32) else c

/-- `String.prototype.toLowerCase` on one character (ASCII). -/
def asciiLower (c : Char) : Char :=
  if 'A' ≤ c ∧ c ≤ 'Z' then Char.ofNat (c.toNat + 32) else c

/-- Model of `String.prototype.toUpperCase`. -/
def jsToUpper (s : String) : String := String.mk (s.data.map asciiUpper)

/-- Model of `String.prototype.toLowerCase`. -/
def jsToLower (s : String) : String := String.mk (s.data.map asciiLower)

/-- Model of `String.prototype.startsWith`. -/
def jsStartsWith (s pre : String) : Bool :=
  s.data.take pre.data.length == pre.data

/-- JSON insignificant whitespace. -/
def jsonWs (c : Char) : Bool :=
  c == ' ' || c == '\t' || c == '\n' || c == '\r'

/-- Drop leading JSON whitespace. -/
def skipWs : List Char → List Char
  | [] => []
  | c :: cs => if jsonWs c then skipWs cs else c :: cs

/-- Value of a hex digit, if any. -/
def hexVal (c : Char) : Option Nat :=
  if '0' ≤ c ∧ c ≤ '9' then some (c.toNat - '0'.toNat)
  else if 'a' ≤ c ∧ c ≤ 'f' then some (c.toNat - 'a'.toNat + 10)
  else if 'A' ≤ c ∧ c ≤ 'F' then some (c.toNat - 'A'.toNat + 10)
  else none

/-- Decimal digit test for the JSON number grammar. -/
def isDigitChar (c : Char) : Bool := '0' ≤ c && c ≤ '9'

/-- Accumulate decimal digits into a natural number. -/
def digitsToNat (acc : Nat) : List Char → Nat
  | [] => acc
  | c :: cs => digitsToNat (acc * 10 + (c.toNat - '0'.toNat)) cs

/-- Body of a JSON string after the opening quote; handles the escape
sequences of RFC 8259 and refuses raw control characters, as `JSON.parse`
does. -/
def parseStringBody : Nat → List Char → List Char → Option (String × List Char)
  | 0, _, _ => none
  | _ + 1, [], _ => none
  | f + 1, c :: rest, acc =>
    if c == '"' then some (String.mk acc.reverse, rest)
    else if c == '\\' then
      match rest with
      | [] => none
      | e :: rest2 =>
        if e == '"' then parseStringBody f rest2 ('"' :: acc)
        else if e == '\\' then parseStringBody f rest2 ('\\' :: acc)
        else if e == '/' then parseStringBody f rest2 ('/' :: acc)
        else if e == 'b' then parseStringBody f rest2 ('\x08' :: acc)
        else if e == 'f' then parseStringBody f rest2 ('\x0c' :: acc)
        else if e == 'n' then parseStringBody f rest2 ('\n' :: acc)
        else if e == 'r' then parseStringBody f rest2 ('\r' :: acc)
        else if e == 't' then parseStringBody f rest2 ('\t' :: acc)
        else if e == 'u' then
          match rest2 with
          | h1 :: h2 :: h3 :: h4 :: rest3 =>
            match hexVal h1, hexVal h2, hexVal h3, hexVal h4 with
            | some a, some b, some c2, some d =>
                parseStringBody f rest3 (Char.ofNat (a * 4096 + b * 256 + c2 * 16 + d) :: acc)
            | _, _, _, _ => none
          | _ => none
        else none
    else if c.toNat < 32 then none
    else parseStringBody f rest (c :: acc)

/-- Optional fraction part of a JSON number. -/
def parseFrac : List Char → Option (List Char × List Char)
  | '.' :: r =>
      let ds := r.takeWhile isDigitChar
      if ds.isEmpty then none else some (ds, r.dropWhile isDigitChar)
  | cs => some ([], cs)

/-- Optional exponent part of a JSON number: (negative?, digits, rest). -/
def parseExponentPart : List Char → Option (Bool × List Char × List Char)
  | [] => some (false, [], [])
  | c :: r =>
    if c == 'e' || c == 'E' then
      let p := match r with
        | '+' :: rr => (false, rr)
        | '-' :: rr => (true, rr)
        | _ => (false, r)
      let ds := p.2.takeWhile isDigitChar
      if ds.isEmpty then none else some (p.1, ds, p.2.dropWhile isDigitChar)
    else some (false, [], c :: r)

/-- A JSON number, read as the exact rational it denotes (JS rounds to a
binary float afterwards; the claims only depend on zero versus nonzero,
which the exact value preserves for all literals of the JSON grammar short
of float underflow). -/
def parseNumber (cs : List Char) : Option (Rat × List Char) :=
  let p := match cs with
    | '-' :: r => (true, r)
    | _ => (false, cs)
  match p.2 with
  | [] => none
  | c :: rest =>
    if !(isDigitChar c) then none
    else
      let q := if c == '0' then ([c], rest)
               else (p.2.takeWhile isDigitChar, p.2.dropWhile isDigitChar)
      match parseFrac q.2 with
      | none => none
      | some (fracDs, cs3) =>
        match parseExponentPart cs3 with
        | none => none
        | some (expNeg, expDs, cs4) =>
          let m : Nat := digitsToNat 0 (q.1 ++ fracDs)
          let eRaw : Int := digitsToNat 0 expDs
          let e : Int := (if expNeg then -eRaw else eRaw) - (fracDs.length : Int)
          let mag : Rat :=
            if 0 ≤ e then mkRat (m * 10 ^ e.toNat) 1
            else mkRat m (10 ^ (-e).toNat)
          some (if p.1 then -mag else mag, cs4)

/-- Expect the tail of a keyword literal (`true`, `false`, `null`). -/
def expectLit (lit : String) (cs : List Char) (v : JsValue) : Option (JsValue × List Char) :=
  if cs.take lit.data.length == lit.data then some (v, cs.drop lit.data.length) else none

mutual

/-- One JSON value, fuel-bounded recursive descent. -/
def parseValue : Nat → List Char → Option (JsValue × List Char)
  | 0, _ => none
  | f + 1, cs =>
    match skipWs cs with
    | [] => none
    | c :: rest =>
      if c == Char.ofNat 123 then
        match skipWs rest with
        | d :: rest2 =>
            if d == Char.ofNat 125 then some (.obj [], rest2)
            else parseObjMembers f (d :: rest2) []
        | [] => none
      else if c == '[' then
        match skipWs rest with
        | d :: rest2 =>
            if d == ']' then some (.arr [], rest2)
            else parseArrElems f (d :: rest2) []
        | [] => none
      else if c == '"' then
        match parseStringBody (rest.length + 1) rest [] with
        | some (s, r) => some (.str s, r)
        | none => none
      else if c == 't' then expectLit "rue" rest (.bool true)
      else if c == 'f' then expectLit "alse" rest (.bool false)
      else if c == 'n' then expectLit "ull" rest .null
      else
        match parseNumber (c :: rest) with
        | some (q, r) => some (.num q, r)
        | none => none

/-- Elements of a non-empty JSON array after the opening bracket. -/
def parseArrElems : Nat → List Char → List JsValue → Option (JsValue × List Char)
  | 0, _, _ => none
  | f + 1, cs, acc =>
    match parseValue f cs with
    | none => none
    | some (v, r) =>
      match skipWs r with
      | ',' :: r2 => parseArrElems f r2 (v :: acc)
      | ']' :: r2 => some (.arr (v :: acc).reverse, r2)
      | _ => none

/-- Members of a non-empty JSON object after the opening brace. -/
def parseObjMembers : Nat → List Char → List (String × JsValue) → Option (JsValue × List Char)
  | 0, _, _ => none
  | f + 1, cs, acc =>
    match skipWs cs with
    | '"' :: r =>
      match parseStringBody (r.length + 1) r [] with
      | none => none
      | some (k, r2) =>
        match skipWs r2 with
        | ':' :: r3 =>
          match parseValue f r3 with
          | none => none
          | some (v, r4) =>
            match skipWs r4 with
            | ',' :: r5 => parseObjMembers f r5 (insertKey acc k v)
            | c :: r5 =>
                if c == Char.ofNat 125 then some (.obj (insertKey acc k v), r5)
                else none
            | [] => none
        | _ => none
    | _ => none

end

/-- Model of `JSON.parse`: `some v` on a complete well-formed JSON text,
`none` where `JSON.parse` throws (`parseJsonSafely` in every server
variant turns the throw into `null`). -/
def jsonParse (s : String) : Option JsValue :=
  match parseValue (2 * s.length + 2) s.data with
  | some (v, rest) => if (skipWs rest).isEmpty then some v else none
  | none => none

/-- An HTTP response: status code plus JSON body. -/
structure HResp where
  status : Nat
  body : JsValue

/-- The 502 response every JSON-expecting endpoint builds on parse
failure: `res.status(502).json(\x7b error, raw: content \x7d)`. -/
def http502 (msg raw : String) : HResp :=
  ⟨502, .obj [("error", .str msg), ("raw", .str raw)]⟩

/-- The 400 response `res.status(400).json(\x7b error \x7d)`. -/
def http400 (msg : String) : HResp :=
  ⟨400, .obj [("error", .str msg)]⟩

/-- src/server.js `/ai/writing-feedback`, lines 57-67 (identical in all
variants): from the trimmed completion content, parse with
`parseJsonSafely`; a throw or a falsy parse (`if (!json)`) yields 502
carrying the content as `raw`, otherwise the parsed value is re-emitted. -/
def writingFeedbackFromContent (content : String) : HResp :=
  match jsonParse content with
  | some v =>
      if jsTruthy v then ⟨200, v⟩
      else http502 "Model did not return valid JSON." content
  | none => http502 "Model did not return valid JSON." content

/-- src/server.js `/ai/vocabulary`, lines 100-110: guard is
`!json || !Array.isArray(json)`; arrays (always truthy) pass and are
re-emitted unchanged. -/
def vocabularyFromContent (content : String) : HResp :=
  match jsonParse content with
  | some (.arr items) => ⟨200, .arr items⟩
  | _ => http502 "Model did not return a valid JSON array." content

/-- src/server.js `/ai/sentences-feedback`, lines 168-178: the content is
not trimmed here, and the 502 error text has no trailing period. -/
def sentencesFromContent (content : String) : HResp :=
  match jsonParse content with
  | some v =>
      if jsTruthy v then ⟨200, v⟩
      else http502 "Model did not return valid JSON" content
  | none => http502 "Model did not return valid JSON" content

/-- src/server.js `/ai/resume-score`, lines 220-230: same shape as
writing-feedback. -/
def resumeScoreFromContent (content : String) : HResp :=
  match jsonParse content with
  | some v =>
      if jsTruthy v then ⟨200, v⟩
      else http502 "Model did not return valid JSON." content
  | none => http502 "Model did not return valid JSON." content

/-- `typeof v === "object"` for a non-null JSON value: objects and arrays. -/
def jsIsObjectType : JsValue → Bool
  | .obj _ => true
  | .arr _ => true
  | _ => false

/-- Spreading a JS array into an object literal turns indices into keys
(`\x7b...someArray\x7d` gives `\x7b0: ..., 1: ...\x7d`). -/
def enumFields (l : List JsValue) : List (String × JsValue) :=
  (l.enum.map fun p => (toString p.1, p.2))

/-- src/unnamed/part_000 `/ai/vocabulary`, lines 642-647: defensive
post-parse normalization of one item.
`const obj = typeof it === "object" && it ? it : \x7b\x7d;`
`const translations = obj.translations && typeof obj.translations === "object" ? obj.translations : \x7b\x7d;`
`return \x7b ...obj, translations \x7d;`
Arrays have `typeof "object"` and are truthy, so they are spread as
index-keyed objects; `null` and primitives collapse to `\x7b\x7d`. -/
def normalizeVocabItem (it : JsValue) : JsValue :=
  let kvs : List (String × JsValue) :=
    match it with
    | .obj kvs => kvs
    | .arr l => enumFields l
    | _ => []
  let translations : JsValue :=
    match lookupKey kvs "translations" with
    | some v => if jsTruthy v && jsIsObjectType v then v else .obj []
    | none => .obj []
  .obj (insertKey kvs "translations" translations)

/-- src/unnamed/part_000 `/ai/vocabulary`, lines 559-561: trim each word
(`String(w || "")` sends a missing/null entry to `""`) and drop blanks. -/
def cleanWordsOf (words : List (Option String)) : List String :=
  (words.map fun w => jsTrim (w.getD "")).filter (fun s => !s.isEmpty)

/-- src/unnamed/part_000 `/ai/vocabulary`, lines 544-649, response path.
The request's `words` field is `none` when missing or not an array.  The
language-code handling and prompt assembly (lines 569-620) only shape the
prompt sent upstream, not the response, and the upstream reply is the
`modelReply` oracle argument (`none` models a missing content field).
Returns the response paired with the number of upstream calls made. -/
def vocabularyNormalizedFromContent (content : String) : HResp :=
  match jsonParse content with
  | some (.arr items) => ⟨200, .arr (items.map normalizeVocabItem)⟩
  | _ => http502 "Model did not return a valid JSON array." content

/-- src/unnamed/part_000 `/ai/vocabulary`, request validation wired to the
normalized responder; the pair's second component counts upstream calls. -/
def vocabularyEndpointP0 (words : Option (List (Option String)))
    (modelReply : Option String) : HResp × Nat :=
  match words with
  | none => (http400 "Missing or invalid \x27words\x27 array.", 0)
  | some ws =>
    if ws.isEmpty then (http400 "Missing or invalid \x27words\x27 array.", 0)
    else if (cleanWordsOf ws).isEmpty then
      (http400 "Missing or invalid \x27words\x27 array.", 0)
    else (vocabularyNormalizedFromContent (jsTrim (modelReply.getD "")), 1)

/-- src/unnamed/part_001 `/ai/writing-feedback` (json_schema variant),
lines 561-594 after the document separator: the endpoint calls
`res.json(JSON.parse(resp.output_text))` inside the `try` block, so an
unparseable upstream text throws and falls to the catch, which answers
`res.status(500).json(\x7b error: String(e) \x7d)` — no 502 and no `raw`
field.  `exnMsg` stands for the runtime's stringified SyntaxError. -/
inductive SchemaResp where
  | ok (v : JsValue)
  | serverError (exnMsg : String)

/-- Response of the json_schema writing-feedback variant given the
provider's `output_text`. -/
def writingFeedbackSchemaVariant (exnMsg : String) (output_text : String) : SchemaResp :=
  match jsonParse output_text with
  | some v => .ok v
  | none => .serverError exnMsg

/-- Status code of a json_schema-variant response. -/
def schemaStatus : SchemaResp → Nat
  | .ok _ => 200
  | .serverError _ => 500

/-- Body of a json_schema-variant response. -/
def schemaBody : SchemaResp → JsValue
  | .ok v => v
  | .serverError e => .obj [("error", .str e)]

/-- src/unnamed/part_000 lines 365-369 and src/unnamed/part_001 lines
35-39, `normalizeLevel`: `String(level || "B2").toUpperCase().trim()`,
then membership in the allow-set, defaulting to B2.  The argument is
`none` for a missing/null level. -/
def normalizeLevel (level : Option String) : String :=
  let base := match level with
    | some s => if s.isEmpty then "B2" else s
    | none => "B2"
  let L := jsTrim (jsToUpper base)
  if L ∈ ["A1", "A2", "B1", "B2", "C1"] then L else "B2"

/-- src/unnamed/part_001 lines 41-87, `levelSpec`: fixed style-directive
block per level (each template literal is `.trim()`ed in the source; the
trim is applied statically here). -/
def levelSpec (lvl : String) : String :=
  if lvl = "A1" then
    "Use very simple words and short sentences (5–8 words).\nSpeak slowly. Use present tense mostly.\nAsk ONE question at a time.\nAvoid idioms, slang, and phrasal verbs.\nGive only minimal correction if needed (1 short fix)."
  else if lvl = "A2" then
    "Use simple vocabulary and short sentences (8–12 words).\nUse present and past simple.\nAsk ONE clear follow-up question.\nGive gentle corrections with a short example.\nAvoid complex idioms and advanced phrasal verbs."
  else if lvl = "B1" then
    "Use everyday vocabulary and natural short paragraphs.\nUse present/past/future. Some common phrasal verbs are OK.\nAsk follow-up questions and encourage longer answers.\nCorrect gently and explain briefly (1–2 lines)."
  else if lvl = "B2" then
    "Speak naturally and clearly with varied sentence structures.\nUse common idioms occasionally (not too many).\nAsk deeper follow-up questions and challenge the user a bit.\nCorrect gently and give a better alternative phrasing."
  else if lvl = "C1" then
    "Speak fluently with advanced vocabulary and nuanced phrasing.\nUse idioms and collocations naturally.\nAsk analytical questions, request justification and examples.\nProvide precise corrections and style improvements (concise)."
  else
    "Speak naturally and clearly at B2 level.\nAsk follow-up questions.\nCorrect gently when needed."

/-- One raw item of a sentences-feedback request: `word` and `sentences`
fields as sent in JSON (`none` models a missing/null string field; a
`none` sentences field models missing-or-not-an-array). -/
structure SentItem where
  word : Option String
  sentences : Option (List (Option String))

/-- A cleaned item as built by the `.map` of src/server.js lines 130-139:
`word: String(it.word || "").trim()`, sentences trimmed likewise, and a
non-array `sentences` replaced by `[]`. -/
structure CleanSentItem where
  word : String
  sentences : List String

/-- The `.map` step of the sentences-feedback cleaning. -/
def cleanSentItem (it : SentItem) : CleanSentItem :=
  ⟨jsTrim (it.word.getD ""),
   match it.sentences with
   | some l => l.map fun s => jsTrim (s.getD "")
   | none => []⟩

/-- The `.filter` predicate of src/server.js lines 140-145:
`it.word && it.sentences.length === 2 && it.sentences.every(s => s.length > 0)`. -/
def keepSentItem (it : CleanSentItem) : Bool :=
  !it.word.isEmpty && it.sentences.length == 2 && it.sentences.all (fun s => !s.isEmpty)

/-- `cleanItems` of src/server.js lines 130-145. -/
def cleanSentItems (items : List SentItem) : List CleanSentItem :=
  (items.map cleanSentItem).filter keepSentItem

/-- src/server.js `/ai/sentences-feedback`, lines 122-182: request
validation then the upstream call.  `items = none` models a missing or
non-array `items` field.  Returns the response paired with the number of
upstream calls made; the upstream reply is the `modelReply` oracle. -/
def sentencesEndpoint (items : Option (List SentItem))
    (modelReply : Option String) : HResp × Nat :=
  match items with
  | none => (http400 "Missing \x27items\x27 (array).", 0)
  | some l =>
    if l.isEmpty then (http400 "Missing \x27items\x27 (array).", 0)
    else if (cleanSentItems l).isEmpty then
      (http400 "Each item must have a word and 2 sentences.", 0)
    else (sentencesFromContent (modelReply.getD ""), 1)

/-- src/unnamed/part_000 `/ai/resume-score`, lines 762-776: the effective
draft list.  `drafts = some ds` models `Array.isArray(body.drafts)`
(entries `none` for missing/null elements, sent to `""` by
`String(d || "")`); `drafts = none` selects the legacy branch, where
`String(body.writingN ?? "")` sends a missing field to `""`. -/
def resumeFinalDrafts (drafts : Option (List (Option String)))
    (writing1 writing2 writing100 : Option String) : List String :=
  match drafts with
  | some ds => (ds.map fun d => d.getD "").filter (fun t => !(jsTrim t).isEmpty)
  | none =>
      [writing1.getD "", writing2.getD "", writing100.getD ""].filter
        (fun t => !(jsTrim t).isEmpty)

/-- The shared vocabulary cleaning of both conversation variants:
`vocabulary.map(w => String(w || "").trim()).filter(Boolean)` (src/unnamed/
part_000 lines 845-849, src/unnamed/part_001 lines 456-460); a `none`
argument models a missing or non-array `vocabulary` field, giving `[]`. -/
def cleanedVocab (vocabulary : Option (List (Option String))) : List String :=
  match vocabulary with
  | some l => (l.map fun w => jsTrim (w.getD "")).filter (fun s => !s.isEmpty)
  | none => []

/-- src/unnamed/part_000 `/ai/conversation`, lines 845-850, `safeVocab`:
clean then `.slice(0, 30)` — a cap, with no deduplication. -/
def safeVocab (vocabulary : Option (List (Option String))) : List String :=
  (cleanedVocab vocabulary).take 30

/-- The `seen`-set filter of src/unnamed/part_001 lines 462-468: keep the
first occurrence of each case-insensitive key. -/
def dedupCaseInsensitive (seen : List String) : List String → List String
  | [] => []
  | w :: ws =>
      if jsToLower w ∈ seen then dedupCaseInsensitive seen ws
      else w :: dedupCaseInsensitive (jsToLower w :: seen) ws

/-- src/unnamed/part_001 `/ai/conversation`, lines 456-468, `uniqueVocab`:
clean then deduplicate case-insensitively — no cap. -/
def uniqueVocab (vocabulary : Option (List (Option String))) : List String :=
  dedupCaseInsensitive [] (cleanedVocab vocabulary)

/-- The fields of a parsed WHATWG URL that the allow-list checks read.
`new URL(...)` is a platform builtin, so the checks are parametrized by a
parser `String → Option URL` (`none` models the constructor throwing). -/
structure URL where
  protocol : String
  hostname : String
  pathname : String

/-- A concrete instance of the platform URL parser covering the
`scheme://host/path` fragment the claims exercise: http(s) scheme, host
lowercased and cut at a port colon, path defaulting to `/`.  Used to
instantiate the `parseURL` parameter in witnesses. -/
def simpleParseURL (s : String) : Option URL :=
  let after : Option (String × List Char) :=
    if jsStartsWith s "https://" then some ("https:", s.data.drop 8)
    else if jsStartsWith s "http://" then some ("http:", s.data.drop 7)
    else none
  match after with
  | none => none
  | some (proto, rest) =>
    if rest.isEmpty then none
    else
      let hostPart := rest.takeWhile (fun c => c ≠ '/')
      let path := rest.dropWhile (fun c => c ≠ '/')
      if hostPart.isEmpty then none
      else some ⟨proto, jsToLower (String.mk (hostPart.takeWhile (fun c => c ≠ ':'))),
                 if path.isEmpty then "/" else String.mk path⟩

/-- src/unnamed/part_001 lines 89-100, `isValidTedEdLessonUrl`: https,
host exactly `ed.ted.com`, path under `/lessons/`; a throwing constructor
means `false`. -/
def isValidTedEdLessonUrl (parseURL : String → Option URL) (urlStr : String) : Bool :=
  match parseURL urlStr with
  | some u =>
      u.protocol == "https:" && u.hostname == "ed.ted.com" &&
        jsStartsWith u.pathname "/lessons/"
  | none => false

/-- src/unnamed/part_000 lines 420-429, `isAllowedTedEdUrl`: https and
host exactly `ed.ted.com` (no path condition in this variant). -/
def isAllowedTedEdUrl (parseURL : String → Option URL) (url : String) : Bool :=
  match parseURL url with
  | some u => u.protocol == "https:" && u.hostname == "ed.ted.com"
  | none => false

/-- The metadata signals the cheerio extraction of src/unnamed/part_001
lines 135-156 reads from the fetched page, already carrying the `|| ""`
defaults and the per-signal trims applied at their binding sites. -/
structure PageSignals where
  ogTitle : String
  ogDesc : String
  h1 : String
  pageTitle : String
  metaDesc : String
  ldTitle : String
  ldDesc : String

/-- Outcome of the single outbound fetch-and-load: either the page's
signals, or a thrown error (network failure, abort timeout, body or
markup error). -/
inductive FetchOutcome where
  | page (sig : PageSignals)
  | fail

/-- The result object of `fetchTedEdContext` (src/unnamed/part_001 lines
111-183): `reason` is `none` on the success shape, which carries no
`reason` property. -/
structure TedResult where
  url : String
  title : String
  description : String
  extractedText : String
  ok : Bool
  reason : Option String

/-- JS `a || b` on strings: empty is falsy. -/
def jsOrS (a b : String) : String :=
  if a.isEmpty then b else a

/-- src/unnamed/part_001 lines 108-187, `fetchTedEdContext`.  The guard
runs before any network access; the transport oracle stands for
`fetch` + `res.text()` + `cheerio.load`, consulted only on the fetch
path.  Returns the result paired with the number of network requests
made. -/
def fetchTedEdContext (parseURL : String → Option URL)
    (transport : String → FetchOutcome) (lessonUrl : Option String) :
    TedResult × Nat :=
  let url := jsTrim (lessonUrl.getD "")
  if url.isEmpty || !(isValidTedEdLessonUrl parseURL url) then
    (⟨url, "", "", "", false,
      some (if url.isEmpty then "missing_url" else "invalid_ted_ed_url")⟩, 0)
  else
    match transport url with
    | .fail => (⟨url, "", "", "", false, some "fetch_failed"⟩, 1)
    | .page sig =>
      let title := jsTrim (jsOrS sig.ldTitle (jsOrS sig.ogTitle (jsOrS sig.h1
                      (jsOrS sig.pageTitle ""))))
      let description := jsTrim (jsOrS sig.ldDesc (jsOrS sig.ogDesc
                            (jsOrS sig.metaDesc "")))
      let lines := [if title.isEmpty then "" else "Title: " ++ title,
                    if description.isEmpty then "" else "Description: " ++ description]
      let extractedText := String.intercalate "\n" (lines.filter (fun s => !s.isEmpty))
      (⟨url, title, description, extractedText, true, none⟩, 1)

/-- One entry of the request's `messages` array. -/
structure ConvMsg where
  role : Option String
  content : Option String

/-- A message sent to the completion service. -/
structure ChatMsg where
  role : String
  content : String

/-- src/unnamed/part_001 `/ai/conversation` request fields as
destructured on lines 437-444.  `messages = none` models a present
non-array value (the destructuring default turns an absent field into
`[]`, i.e. `some []`); `vocabulary = none` models a missing or non-array
vocabulary. -/
structure ConvRequest where
  level : Option String
  videoUrl : Option String
  tedUrl : Option String
  topicResume : Option String
  vocabulary : Option (List (Option String))
  messages : Option (List ConvMsg)

/-- JS `a || b` where `a` is an optional string and `b` a string. -/
def jsOrOptS (a : Option String) (b : String) : String :=
  match a with
  | some s => if s.isEmpty then b else s
  | none => b

/-- src/unnamed/part_001 lines 472-486, `systemPrompt` (template trim
applied statically). -/
def systemPromptP1 (lvl : String) : String :=
  "You are an English conversation partner.\nTarget level: " ++ lvl ++
  " (CEFR).\n\nSTYLE & LEVEL RULES:\n" ++ levelSpec lvl ++
  "\n\nGLOBAL RULES (always):\n- Be friendly and encouraging.\n- Keep focus on the TED-Ed topic when possible.\n- Use the provided vocabulary naturally when it fits (do not force).\n- Always ask a follow-up question at the end.\n- Corrections: keep them gentle, short, and helpful.\n- Never output JSON. Output plain conversational text only."

/-- src/unnamed/part_001 lines 488-503, `contextPrompt` (template trim
applied statically): lesson link, extracted TED-Ed context or the
could-not-extract notice, the fallback summary, the vocabulary list. -/
def contextPromptP1 (ted : TedResult) (topicResume : Option String)
    (vocab : List String) : String :=
  "TED-Ed lesson link:\n" ++ jsOrS ted.url "No link provided." ++
  "\n\nTED-Ed context (use this as the main reference):\n" ++
  jsOrS ted.extractedText
    "Could not extract TED-Ed content. Use the fallback summary below if available." ++
  "\n\nFallback summary (if needed):\n" ++
  jsOrS (jsTrim (topicResume.getD "")) "No summary provided." ++
  "\n\nKey vocabulary:\n" ++
  (if vocab.isEmpty then "(none)" else String.intercalate ", " vocab) ++
  "\n\nIf this is the first turn (no messages yet), start by asking ONE open question about the topic.\nOtherwise, continue the conversation naturally."

/-- Role normalization of src/unnamed/part_001 lines 506-509: anything
other than (case-insensitive) `assistant` becomes `user`. -/
def normRole (r : Option String) : String :=
  if jsToLower (r.getD "") = "assistant" then "assistant" else "user"

/-- Result of the part_001 conversation endpoint: 400, 502 on an empty
model reply, or the 200 body `\x7b reply, ted: \x7b...\x7d \x7d`. -/
inductive ConvResult where
  | badRequest (error : String)
  | badGateway (error : String)
  | ok (reply : String) (ted : TedResult)

/-- The message list sent to the completion service by the part_001
conversation endpoint (lines 511-519): system prompt, context prompt,
then the role-normalized client history. -/
def chatMessagesP1 (lvl : String) (ted : TedResult) (topicResume : Option String)
    (vocab : List String) (msgs : List ConvMsg) : List ChatMsg :=
  ⟨"system", systemPromptP1 lvl⟩ ::
    (⟨"user", contextPromptP1 ted topicResume vocab⟩ : ChatMsg) ::
    msgs.map (fun m => ⟨normRole m.role, m.content.getD ""⟩)

/-- src/unnamed/part_001 `/ai/conversation`, lines 435-541.  The
completion service is the `oracle` argument (messages sent → content of
the reply, `none` for a missing content field); `parseURL` and
`transport` are threaded to `fetchTedEdContext`. -/
def conversationEndpointP1 (parseURL : String → Option URL)
    (transport : String → FetchOutcome)
    (oracle : List ChatMsg → Option String) (req : ConvRequest) : ConvResult :=
  match req.messages with
  | none => .badRequest "Invalid \x27messages\x27 array."
  | some msgs =>
    let lvl := normalizeLevel req.level
    let lessonLink := jsTrim (jsOrOptS req.videoUrl (jsOrOptS req.tedUrl ""))
    let ted := (fetchTedEdContext parseURL transport (some lessonLink)).1
    let vocab := uniqueVocab req.vocabulary
    let reply := jsTrim ((oracle (chatMessagesP1 lvl ted req.topicResume vocab msgs)).getD "")
    if reply.isEmpty then .badGateway "Empty reply from model"
    else .ok reply ted

/-- The metadata extracted by src/unnamed/part_000 `extractTedEdContext`
(lines 483-488): a bare record with no `ok`/`reason` fields. -/
structure TedPageContextP0 where
  title : String
  description : String
  canonical : String
  keywords : String

/-- The signals the cheerio extraction of src/unnamed/part_000 lines
463-481 reads from the fetched page, with the `|| ""`-equivalent defaults
(a missing attribute behaves like the empty string in the `||` chains). -/
structure PageSignalsP0 where
  ogTitle : String
  twitterTitle : String
  titleText : String
  ogDesc : String
  metaDesc : String
  twitterDesc : String
  canonicalLink : String
  ogUrl : String
  keywords : String

/-- Outcome of `fetchWithTimeout` + `res.text()` + `cheerio.load` in the
part_000 variant: a response with its `res.ok` flag and page signals, or
a thrown error (network failure, abort timeout, body error) carrying the
runtime error message.  `fetchWithTimeout` (lines 432-449) has only a
`finally`, so the throw escapes it. -/
inductive FetchOutcomeP0 where
  | page (ok : Bool) (sig : PageSignalsP0)
  | thrown (errMsg : String)

/-- src/unnamed/part_000 lines 452-489, `extractTedEdContext`.  There is
no try/catch here: an invalid URL or a non-2xx response returns `null`
(`Except.ok none`), but a thrown fetch/timeout/body error propagates to
the caller, modelled as `Except.error` carrying the error message. -/
def extractTedEdContext (parseURL : String → Option URL)
    (transport : String → FetchOutcomeP0) (tedUrl : String) :
    Except String (Option TedPageContextP0) :=
  if tedUrl.isEmpty || !(isAllowedTedEdUrl parseURL tedUrl) then .ok none
  else
    match transport tedUrl with
    | .thrown e => .error e
    | .page ok sig =>
      if !ok then .ok none
      else
        let title := jsTrim (jsOrS sig.ogTitle (jsOrS sig.twitterTitle
                      (jsOrS sig.titleText "")))
        let description := jsTrim (jsOrS sig.ogDesc (jsOrS sig.metaDesc
                      (jsOrS sig.twitterDesc "")))
        let canonical0 := jsOrS sig.canonicalLink (jsOrS sig.ogUrl tedUrl)
        .ok (some ⟨title, description, jsTrim canonical0, jsTrim sig.keywords⟩)

/-- src/unnamed/part_000 `/ai/conversation` request fields as
destructured on line 831.  `messages = none` models a missing or
non-array value (this variant has no destructuring default for
`messages`). -/
structure ConvRequestP0 where
  level : Option String
  topicResume : Option String
  vocabulary : Option (List (Option String))
  messages : Option (List ConvMsg)
  tedUrl : Option String

/-- Result of the part_000 conversation endpoint: 400, 502 on an empty
model reply, 500 from the handler catch (`res.status(500).send(...)`), or
the 200 body `\x7b reply, usedTedUrl, tedTitle \x7d`. -/
inductive ConvResultP0 where
  | badRequest (error : String)
  | badGateway (error : String)
  | serverError (msg : String)
  | ok (reply : String) (usedTedUrl : Bool) (tedTitle : Option String)

/-- HTTP status of a part_000 conversation result. -/
def convResultP0Status : ConvResultP0 → Nat
  | .badRequest _ => 400
  | .badGateway _ => 502
  | .serverError _ => 500
  | .ok _ _ _ => 200

/-- src/unnamed/part_000 lines 868-885, `contextPrompt` (template trim
applied statically). -/
def contextPromptP0 (tedContext : Option TedPageContextP0)
    (tedUrl : Option String) (topicResume : Option String)
    (vocab : List String) : String :=
  "TED-Ed context:\n" ++
  (match tedContext with
   | some t =>
       "Title: " ++ jsOrS t.title "Unknown" ++
       "\nDescription: " ++ jsOrS t.description "No description available" ++
       "\nURL: " ++ jsOrS t.canonical (jsOrOptS tedUrl "")
   | none => "No TED-Ed context fetched (missing/invalid tedUrl or fetch failed).") ++
  "\n\nFallback topic summary (if any):\n" ++
  jsOrS (jsTrim (topicResume.getD "")) "No summary provided." ++
  "\n\nKey vocabulary:\n" ++ String.intercalate ", " vocab ++
  "\n\nIf the user has no messages yet, start by asking ONE open question about the TED-Ed topic."

/-- src/unnamed/part_000 `/ai/conversation`, lines 829-917.  The system
prompt text of this variant (lines 852-866) is identical to the part_001
one, so `systemPromptP1` is reused.  The call
`tedUrl ? await extractTedEdContext(String(tedUrl).trim()) : null` is
inside the handler try, so an `Except.error` from the fetcher falls to
the catch: `res.status(500).send(err?.message || "Conversation error")` —
a request-level 500 caused by the fetch. -/
def conversationEndpointP0 (parseURL : String → Option URL)
    (transport : String → FetchOutcomeP0)
    (oracle : List ChatMsg → Option String) (req : ConvRequestP0) : ConvResultP0 :=
  match req.messages with
  | none => .badRequest "Missing required fields: level, messages"
  | some msgs =>
    if (match req.level with | none => true | some s => s.isEmpty) then
      .badRequest "Missing required fields: level, messages"
    else
      let lvl := normalizeLevel req.level
      let tedFetch : Except String (Option TedPageContextP0) :=
        match req.tedUrl with
        | some u =>
            if u.isEmpty then .ok none
            else extractTedEdContext parseURL transport (jsTrim u)
        | none => .ok none
      match tedFetch with
      | .error e => .serverError (jsOrS e "Conversation error")
      | .ok tedContext =>
        let vocab := safeVocab req.vocabulary
        let ctxPrompt := contextPromptP0 tedContext req.tedUrl req.topicResume vocab
        let chatMessages :=
          ⟨"system", systemPromptP1 lvl⟩ :: (⟨"user", ctxPrompt⟩ : ChatMsg) ::
            msgs.map (fun m => ⟨normRole m.role, m.content.getD ""⟩)
        let reply := jsTrim ((oracle chatMessages).getD "")
        if reply.isEmpty then .badGateway "Empty reply from model"
        else
          .ok reply tedContext.isSome
            (match tedContext with
             | some t => if t.title.isEmpty then none else some t.title
             | none => none)

/-- The five-tag allow-set used by `normalizeLevel`. -/
def allowedLevels : List String := ["A1", "A2", "B1", "B2", "C1"]

theorem ite_mem_allowedLevels (L : String) :
    (if L ∈ allowedLevels then L else "B2") ∈ allowedLevels := by
  by_cases h : L ∈ allowedLevels
  · rwa [if_pos h]
  · rw [if_neg h]; decide

/-- C4, counterexample: the input `" b1 "` is, case-insensitively, none of
a1/a2/b1/b2/c1 (it carries surrounding whitespace), yet `normalizeLevel`
returns `"B1"`, not the claimed default `"B2"` — the comparison happens
after trimming. -/
theorem normalizeLevel_cex_C4 :
    normalizeLevel (some " b1 ") = "B1" ∧
    normalizeLevel (some " b1 ") ≠ "B2" ∧
    jsToLower " b1 " ∉ ["a1", "a2", "b1", "b2", "c1"] :=
  ⟨rfl, by decide, by decide⟩

/-- C4, amended: `normalizeLevel` always returns one of the five tags;
any input that after uppercasing and trimming is not one of the five tags
returns B2; a missing input returns B2 (the function is total). -/
theorem normalizeLevel_amended_C4 :
    (∀ level : Option String, normalizeLevel level ∈ allowedLevels) ∧
    (∀ s : String, jsTrim (jsToUpper s) ∉ allowedLevels → normalizeLevel (some s) = "B2") ∧
    normalizeLevel none = "B2" := by
  refine ⟨?_, ?_, rfl⟩
  · intro level
    show (if _ ∈ allowedLevels then _ else "B2") ∈ allowedLevels
    exact ite_mem_allowedLevels _
  · intro s h
    by_cases hs : s.isEmpty
    · have : s = "" := (String.isEmpty_iff s).mp hs
      subst this; rfl
    · show (if _ ∈ allowedLevels then _ else "B2") = "B2"
      simp only [normalizeLevel, hs]
      rw [if_neg]
      simpa [Bool.not_eq_true] using h

/-- Witness for the amended C4 theorem at concrete inputs. -/
theorem normalizeLevel_amended_C4_witness :
    normalizeLevel (some "zz") = "B2" ∧ normalizeLevel (some "b1") ∈ allowedLevels :=
  ⟨normalizeLevel_amended_C4.2.1 "zz" (by decide), normalizeLevel_amended_C4.1 (some "b1")⟩

/-- C7: the preferred drafts-array shape and the legacy three named
writing fields normalize to the same effective draft list (for equal
contents), and in particular `drafts:["a","b"]` and
`writing1:"a", writing2:"b", writing100:""` both yield `["a","b"]`. -/
theorem resumeDrafts_equiv_C7 :
    (∀ a b c : String,
      resumeFinalDrafts (some [some a, some b, some c]) none none none =
        resumeFinalDrafts none (some a) (some b) (some c)) ∧
    resumeFinalDrafts (some [some "a", some "b"]) none none none = ["a", "b"] ∧
    resumeFinalDrafts none (some "a") (some "b") (some "") = ["a", "b"] :=
  ⟨fun _ _ _ => rfl, rfl, rfl⟩

/-- C8, counterexample: the part_000 conversation variant's `safeVocab`
keeps both `"a"` and `"A"` (no case-insensitive deduplication), and the
part_001 variant's `uniqueVocab` keeps 31 distinct entries (no cap at
30) — so no conversation endpoint both deduplicates and caps. -/
theorem conversationVocab_cex_C8 :
    safeVocab (some [some "a", some "A"]) = ["a", "A"] ∧
    ¬ (safeVocab (some [some "a", some "A"])).Pairwise
        (fun x y => jsToLower x ≠ jsToLower y) ∧
    (uniqueVocab (some ((List.range 31).map fun n => some (toString n)))).length = 31 ∧
    ¬ (uniqueVocab (some ((List.range 31).map fun n => some (toString n)))).length ≤ 30 := by
  refine ⟨rfl, ?_, rfl, by decide⟩
  intro hp
  have := (List.pairwise_cons.mp hp).1 "A" (List.mem_cons_self _ _)
  exact this rfl

theorem dedupCaseInsensitive_pairwise (l : List String) : ∀ seen : List String,
    (dedupCaseInsensitive seen l).Pairwise (fun x y => jsToLower x ≠ jsToLower y) ∧
    ∀ w ∈ dedupCaseInsensitive seen l, jsToLower w ∉ seen := by
  induction l with
  | nil => intro seen; exact ⟨List.Pairwise.nil, by intro w hw; cases hw⟩
  | cons w ws ih =>
    intro seen
    by_cases h : jsToLower w ∈ seen
    · rw [dedupCaseInsensitive, if_pos h]; exact ih seen
    · rw [dedupCaseInsensitive, if_neg h]
      obtain ⟨hp, hmem⟩ := ih (jsToLower w :: seen)
      refine ⟨List.Pairwise.cons ?_ hp, ?_⟩
      · intro y hy heq
        exact hmem y hy (by rw [← heq]; exact List.mem_cons_self _ _)
      · intro z hz
        rcases List.mem_cons.mp hz with hz' | hz'
        · rw [hz']; exact h
        · intro hzin
          exact hmem z hz' (List.mem_cons_of_mem _ hzin)

/-- C8, amended: the part_000 conversation variant caps the cleaned
vocabulary at 30 entries (without case-insensitive deduplication), while
the part_001 variant deduplicates it case-insensitively (without any cap);
no single variant does both. -/
theorem conversationVocab_amended_C8 :
    (∀ v : Option (List (Option String)), (safeVocab v).length ≤ 30) ∧
    (∀ v : Option (List (Option String)),
      (uniqueVocab v).Pairwise (fun x y => jsToLower x ≠ jsToLower y)) :=
  ⟨fun v => List.length_take_le 30 (cleanedVocab v),
   fun v => (dedupCaseInsensitive_pairwise (cleanedVocab v) []).1⟩

/-- C1, counterexample: on `"https://evil.example.com/x"` the context
fetcher returns `ok: false` with `reason: "invalid_ted_ed_url"` (and makes
no request), not the claimed `reason: "invalid_url"`. -/
theorem fetchTedEd_cex_C1 :
    fetchTedEdContext simpleParseURL (fun _ => .fail)
        (some "https://evil.example.com/x") =
      (⟨"https://evil.example.com/x", "", "", "", false,
        some "invalid_ted_ed_url"⟩, 0) ∧
    (fetchTedEdContext simpleParseURL (fun _ => .fail)
        (some "https://evil.example.com/x")).1.reason ≠ some "invalid_url" :=
  ⟨rfl, by decide⟩

/-- C1, amended: for every input URL whose scheme is not https or whose
host is not `ed.ted.com` (under any behaviour of the platform URL parser,
including a throwing constructor), the part_001 context fetcher returns
`ok: false` with `reason: "invalid_ted_ed_url"` and performs zero network
requests, and the part_000 allow-list check `isAllowedTedEdUrl` likewise
rejects the URL before any fetch. -/
theorem fetchTedEd_invalid_url_amended_C1
    (parseURL : String → Option URL) (transport : String → FetchOutcome)
    (url : String) (htrim : jsTrim url = url) (hne : url ≠ "")
    (hbad : parseURL url = none ∨
      ∃ u, parseURL url = some u ∧
        (u.protocol ≠ "https:" ∨ u.hostname ≠ "ed.ted.com")) :
    fetchTedEdContext parseURL transport (some url) =
      (⟨url, "", "", "", false, some "invalid_ted_ed_url"⟩, 0) ∧
    isAllowedTedEdUrl parseURL url = false := by
  have hvalid : isValidTedEdLessonUrl parseURL url = false := by
    rcases hbad with hnone | ⟨u, hu, hbad2⟩
    · rw [isValidTedEdLessonUrl, hnone]
    · rw [isValidTedEdLessonUrl, hu]
      show (u.protocol == "https:" && u.hostname == "ed.ted.com" &&
        jsStartsWith u.pathname "/lessons/") = false
      rcases hbad2 with hp | hh
      · have h2 : (u.protocol == "https:") = false := beq_eq_false_iff_ne.mpr hp
        rw [h2, Bool.false_and, Bool.false_and]
      · have h2 : (u.hostname == "ed.ted.com") = false := beq_eq_false_iff_ne.mpr hh
        rw [h2, Bool.and_false, Bool.false_and]
  have hallowed : isAllowedTedEdUrl parseURL url = false := by
    rcases hbad with hnone | ⟨u, hu, hbad2⟩
    · rw [isAllowedTedEdUrl, hnone]
    · rw [isAllowedTedEdUrl, hu]
      show (u.protocol == "https:" && u.hostname == "ed.ted.com") = false
      rcases hbad2 with hp | hh
      · have h2 : (u.protocol == "https:") = false := beq_eq_false_iff_ne.mpr hp
        rw [h2, Bool.false_and]
      · have h2 : (u.hostname == "ed.ted.com") = false := beq_eq_false_iff_ne.mpr hh
        rw [h2, Bool.and_false]
  have hemp : url.isEmpty = false := by
    rcases hcase : url.isEmpty with _ | _
    · rfl
    · exact absurd ((String.isEmpty_iff url).mp hcase) hne
  refine ⟨?_, hallowed⟩
  rw [fetchTedEdContext]
  simp only [Option.getD, htrim, hvalid, hemp]
  rfl

/-- Witness for the amended C1 theorem: a non-HTTPS URL to the allowed
host is rejected with `invalid_ted_ed_url` and zero network requests. -/
theorem fetchTedEd_invalid_url_amended_C1_witness :
    fetchTedEdContext simpleParseURL (fun _ => .fail)
        (some "http://ed.ted.com/lessons/x") =
      (⟨"http://ed.ted.com/lessons/x", "", "", "", false,
        some "invalid_ted_ed_url"⟩, 0) ∧
    isAllowedTedEdUrl simpleParseURL "http://ed.ted.com/lessons/x" = false :=
  fetchTedEd_invalid_url_amended_C1 simpleParseURL (fun _ => .fail)
    "http://ed.ted.com/lessons/x" rfl (by decide)
    (Or.inr ⟨⟨"http:", "ed.ted.com", "/lessons/x"⟩, rfl, Or.inl (by decide)⟩)

/-- C3, counterexample: the json_schema writing-feedback variant parses
the provider output inside its `try`, so the text `"not json"` lands in
the catch and is answered with HTTP 500 and no `raw` field — not the
claimed 502 with `raw === "not json"`. -/
theorem writingFeedbackSchema_cex_C3 :
    writingFeedbackSchemaVariant "SyntaxError: Unexpected token" "not json" =
      .serverError "SyntaxError: Unexpected token" ∧
    schemaStatus (writingFeedbackSchemaVariant "SyntaxError: Unexpected token"
      "not json") = 500 ∧
    jsGet (schemaBody (writingFeedbackSchemaVariant "SyntaxError: Unexpected token"
      "not json")) "raw" = none ∧
    (500 : Nat) ≠ 502 :=
  ⟨rfl, rfl, rfl, by decide⟩

/-- C3, amended: for every endpoint that validates locally with
`parseJsonSafely` (writing-feedback, vocabulary, sentences-feedback,
resume-score in the plain variants, and the part_000 normalized
vocabulary endpoint via `vocabularyEndpointP0`), an upstream text that
fails JSON parsing yields HTTP 502 whose `raw` field is exactly the
offending text; the json_schema variant instead yields HTTP 500 without
`raw`. -/
theorem parse_failure_502_raw_amended_C3 (content : String)
    (h : jsonParse content = none) :
    writingFeedbackFromContent content =
      http502 "Model did not return valid JSON." content ∧
    vocabularyFromContent content =
      http502 "Model did not return a valid JSON array." content ∧
    sentencesFromContent content =
      http502 "Model did not return valid JSON" content ∧
    resumeScoreFromContent content =
      http502 "Model did not return valid JSON." content ∧
    vocabularyNormalizedFromContent content =
      http502 "Model did not return a valid JSON array." content ∧
    (∀ (ws : List (Option String)) (reply : Option String),
      ws.isEmpty = false → (cleanWordsOf ws).isEmpty = false →
      jsTrim (reply.getD "") = content →
      vocabularyEndpointP0 (some ws) reply =
        (http502 "Model did not return a valid JSON array." content, 1)) ∧
    (writingFeedbackFromContent content).status = 502 ∧
    jsGet (writingFeedbackFromContent content).body "raw" = some (.str content) ∧
    (∀ e : String, schemaStatus (writingFeedbackSchemaVariant e content) = 500 ∧
      jsGet (schemaBody (writingFeedbackSchemaVariant e content)) "raw" = none) := by
  have hvn : vocabularyNormalizedFromContent content =
      http502 "Model did not return a valid JSON array." content := by
    simp [vocabularyNormalizedFromContent, h]
  have hvend : ∀ (ws : List (Option String)) (reply : Option String),
      ws.isEmpty = false → (cleanWordsOf ws).isEmpty = false →
      jsTrim (reply.getD "") = content →
      vocabularyEndpointP0 (some ws) reply =
        (http502 "Model did not return a valid JSON array." content, 1) := by
    intro ws reply hws hcw htr
    rw [vocabularyEndpointP0, if_neg (Bool.eq_false_iff.mp hws),
      if_neg (Bool.eq_false_iff.mp hcw), htr, hvn]
  refine ⟨?_, ?_, ?_, ?_, hvn, hvend, ?_, ?_, fun e => ⟨?_, ?_⟩⟩ <;>
    simp [writingFeedbackFromContent, vocabularyFromContent, sentencesFromContent,
      resumeScoreFromContent, writingFeedbackSchemaVariant, h, http502, jsGet,
      lookupKey, schemaStatus, schemaBody]

/-- Witness for the amended C3 theorem at the spec's example text, the
part_000 vocabulary endpoint instantiated at a concrete request. -/
theorem parse_failure_502_raw_amended_C3_witness :
    writingFeedbackFromContent "not json" =
      http502 "Model did not return valid JSON." "not json" ∧
    vocabularyFromContent "not json" =
      http502 "Model did not return a valid JSON array." "not json" ∧
    sentencesFromContent "not json" =
      http502 "Model did not return valid JSON" "not json" ∧
    resumeScoreFromContent "not json" =
      http502 "Model did not return valid JSON." "not json" ∧
    vocabularyNormalizedFromContent "not json" =
      http502 "Model did not return a valid JSON array." "not json" ∧
    vocabularyEndpointP0 (some [some "a"]) (some "not json") =
      (http502 "Model did not return a valid JSON array." "not json", 1) ∧
    (writingFeedbackFromContent "not json").status = 502 ∧
    jsGet (writingFeedbackFromContent "not json").body "raw" =
      some (.str "not json") ∧
    (∀ e : String, schemaStatus (writingFeedbackSchemaVariant e "not json") = 500 ∧
      jsGet (schemaBody (writingFeedbackSchemaVariant e "not json")) "raw" = none) := by
  have h := parse_failure_502_raw_amended_C3 "not json" rfl
  exact ⟨h.1, h.2.1, h.2.2.1, h.2.2.2.1, h.2.2.2.2.1,
    h.2.2.2.2.2.1 [some "a"] (some "not json") rfl rfl rfl,
    h.2.2.2.2.2.2.1, h.2.2.2.2.2.2.2.1, h.2.2.2.2.2.2.2.2⟩

theorem respond200_truthy (msg content : String)
    (h200 : (match jsonParse content with
      | some v => if jsTruthy v then (⟨200, v⟩ : HResp) else http502 msg content
      | none => http502 msg content).status = 200) :
    ∃ v, jsonParse content = some v ∧ jsTruthy v = true := by
  cases hp : jsonParse content with
  | none => rw [hp] at h200; simp [http502] at h200
  | some v =>
    rw [hp] at h200
    cases ht : jsTruthy v with
    | true => exact ⟨v, rfl, ht⟩
    | false => simp [ht, http502] at h200

/-- C9: for every JSON-expecting responder, an upstream text that parses
to a falsy JSON value (the literals `null`, `false`, `0`, `""`) hits the
`!json` guard and is answered 502 with the raw text, even though the text
is valid JSON; and a 200 is only ever produced from a truthy parsed
value. -/
theorem falsy_parse_502_C9 :
    (∀ (content : String) (v : JsValue), jsonParse content = some v →
      jsTruthy v = false →
      writingFeedbackFromContent content =
        http502 "Model did not return valid JSON." content ∧
      vocabularyFromContent content =
        http502 "Model did not return a valid JSON array." content ∧
      sentencesFromContent content =
        http502 "Model did not return valid JSON" content ∧
      resumeScoreFromContent content =
        http502 "Model did not return valid JSON." content) ∧
    (∀ content : String, (writingFeedbackFromContent content).status = 200 →
      ∃ v, jsonParse content = some v ∧ jsTruthy v = true) ∧
    (∀ content : String, (sentencesFromContent content).status = 200 →
      ∃ v, jsonParse content = some v ∧ jsTruthy v = true) ∧
    (∀ content : String, (resumeScoreFromContent content).status = 200 →
      ∃ v, jsonParse content = some v ∧ jsTruthy v = true) ∧
    (∀ content : String, (vocabularyFromContent content).status = 200 →
      ∃ v, jsonParse content = some v ∧ jsTruthy v = true) := by
  refine ⟨?_, ?_, ?_, ?_, ?_⟩
  · intro content v h hf
    refine ⟨?_, ?_, ?_, ?_⟩
    · simp [writingFeedbackFromContent, h, hf]
    · cases v with
      | arr items => exact absurd hf (by simp [jsTruthy])
      | null => simp [vocabularyFromContent, h]
      | bool b => simp [vocabularyFromContent, h]
      | num q => simp [vocabularyFromContent, h]
      | str s => simp [vocabularyFromContent, h]
      | obj kvs => simp [vocabularyFromContent, h]
    · simp [sentencesFromContent, h, hf]
    · simp [resumeScoreFromContent, h, hf]
  · intro content h200
    exact respond200_truthy "Model did not return valid JSON." content h200
  · intro content h200
    exact respond200_truthy "Model did not return valid JSON" content h200
  · intro content h200
    exact respond200_truthy "Model did not return valid JSON." content h200
  · intro content h200
    unfold vocabularyFromContent at h200
    cases hp : jsonParse content with
    | none => rw [hp] at h200; simp [http502] at h200
    | some v =>
      rw [hp] at h200
      cases v with
      | arr items => exact ⟨.arr items, rfl, rfl⟩
      | null => simp [http502] at h200
      | bool b => simp [http502] at h200
      | num q => simp [http502] at h200
      | str s => simp [http502] at h200
      | obj kvs => simp [http502] at h200

/-- Witness for C9 at the four falsy JSON literals. -/
theorem falsy_parse_502_C9_witness :
    writingFeedbackFromContent "null" =
      http502 "Model did not return valid JSON." "null" ∧
    vocabularyFromContent "false" =
      http502 "Model did not return a valid JSON array." "false" ∧
    sentencesFromContent "0" =
      http502 "Model did not return valid JSON" "0" ∧
    resumeScoreFromContent "\"\"" =
      http502 "Model did not return valid JSON." "\"\"" :=
  ⟨(falsy_parse_502_C9.1 "null" .null rfl rfl).1,
   (falsy_parse_502_C9.1 "false" (.bool false) rfl rfl).2.1,
   (falsy_parse_502_C9.1 "0" (.num 0) rfl rfl).2.2.1,
   (falsy_parse_502_C9.1 "\"\"" (.str "") rfl rfl).2.2.2⟩

theorem filter_map_comm_sent (l : List SentItem) :
    cleanSentItems l =
      (l.filter fun it => keepSentItem (cleanSentItem it)).map cleanSentItem := by
  induction l with
  | nil => rfl
  | cons it rest ih =>
    rw [cleanSentItems] at ih ⊢
    simp only [List.map_cons, List.filter_cons]
    cases h : keepSentItem (cleanSentItem it) with
    | true => simp [h, ih]
    | false => simp [h, ih]

theorem sentencesFromContent_status_ne_400 (c : String) :
    (sentencesFromContent c).status ≠ 400 := by
  unfold sentencesFromContent
  cases jsonParse c with
  | none => simp [http502]
  | some v =>
    cases ht : jsTruthy v with
    | true => simp [ht]
    | false => simp [ht, http502]

theorem keepSentItem_false_iff (c : CleanSentItem) :
    keepSentItem c = false ↔
      (c.word = "" ∨ c.sentences.length ≠ 2 ∨ ∃ s ∈ c.sentences, s = "") := by
  obtain ⟨w, ss⟩ := c
  simp only [keepSentItem]
  constructor
  · intro h
    rcases Bool.and_eq_false_iff.mp h with h1 | h3
    · rcases Bool.and_eq_false_iff.mp h1 with h1a | h1b
      · left; simpa [Bool.not_eq_false', String.isEmpty_iff] using h1a
      · right; left; simpa using h1b
    · right; right
      obtain ⟨s, hs, hfail⟩ := List.all_eq_false.mp h3
      exact ⟨s, hs, by simpa [Bool.not_eq_false', String.isEmpty_iff] using hfail⟩
  · intro h
    rcases h with hw | hlen | ⟨s, hs, hse⟩
    · subst hw; rfl
    · apply Bool.and_eq_false_iff.mpr; left
      apply Bool.and_eq_false_iff.mpr; right
      simpa using hlen
    · apply Bool.and_eq_false_iff.mpr; right
      apply List.all_eq_false.mpr
      exact ⟨s, hs, by subst hse; decide⟩

/-- C6: a sentences-feedback item whose (trimmed) word is blank, whose
sentence count is not exactly two, or whose sentences contain a blank
entry fails the filter and is dropped silently from the cleaned list; for
a non-empty `items` array the endpoint answers 400 exactly when the
cleaned list is empty, in which case no upstream call is made, and any
request with at least one surviving item proceeds past validation without
a 400. -/
theorem sentences_validation_C6 :
    (∀ it : SentItem, keepSentItem (cleanSentItem it) = false ↔
      ((cleanSentItem it).word = "" ∨ (cleanSentItem it).sentences.length ≠ 2 ∨
        ∃ s ∈ (cleanSentItem it).sentences, s = "")) ∧
    (∀ l : List SentItem, cleanSentItems l =
      (l.filter fun it => keepSentItem (cleanSentItem it)).map cleanSentItem) ∧
    (∀ (l : List SentItem) (r : Option String), l ≠ [] →
      (((sentencesEndpoint (some l) r).1.status = 400) ↔ cleanSentItems l = []) ∧
      (cleanSentItems l = [] → (sentencesEndpoint (some l) r).2 = 0)) := by
  refine ⟨fun it => keepSentItem_false_iff (cleanSentItem it), filter_map_comm_sent, ?_⟩
  intro l r hne
  cases l with
  | nil => exact absurd rfl hne
  | cons a as =>
    rw [sentencesEndpoint]
    rw [show (a :: as).isEmpty = false from rfl, if_neg (by simp)]
    cases hclean : (cleanSentItems (a :: as)).isEmpty with
    | true =>
      have hcl : cleanSentItems (a :: as) = [] := by
        simpa [List.isEmpty_iff] using hclean
      rw [if_pos (by simp [hclean])]
      exact ⟨⟨fun _ => hcl, fun _ => rfl⟩, fun _ => rfl⟩
    | false =>
      have hcl : cleanSentItems (a :: as) ≠ [] := by
        simpa [List.isEmpty_iff] using hclean
      rw [if_neg (by simp [hclean])]
      exact ⟨⟨fun h400 => absurd h400 (sentencesFromContent_status_ne_400 _),
             fun hc => absurd hc hcl⟩,
             fun hc => absurd hc hcl⟩

/-- Witness for C6: an item whose second sentence is missing is dropped,
the cleaned list empties, and the endpoint answers 400 with zero upstream
calls; a request with one fully valid item does not answer 400. -/
theorem sentences_validation_C6_witness :
    ((sentencesEndpoint (some [⟨some "run", some [some "a", none]⟩]) none).1.status = 400) ∧
    (sentencesEndpoint (some [⟨some "run", some [some "a", none]⟩]) none).2 = 0 ∧
    ¬ ((sentencesEndpoint (some [⟨some "run", some [some "a", some "b"]⟩])
        (some "x")).1.status = 400) := by
  have h1 := sentences_validation_C6.2.2 [⟨some "run", some [some "a", none]⟩] none
    (List.cons_ne_nil _ _)
  have h2 := sentences_validation_C6.2.2 [⟨some "run", some [some "a", some "b"]⟩]
    (some "x") (List.cons_ne_nil _ _)
  refine ⟨h1.1.mpr rfl, h1.2 rfl, fun h400 => ?_⟩
  have hempty : cleanSentItems [⟨some "run", some [some "a", some "b"]⟩] = [] :=
    h2.1.mp h400
  have hval : cleanSentItems [⟨some "run", some [some "a", some "b"]⟩] =
      [⟨"run", ["a", "b"]⟩] := rfl
  exact absurd (hval.symm.trans hempty) (List.cons_ne_nil _ _)

theorem lookupKey_insertKey (kvs : List (String × JsValue)) (key k : String)
    (v : JsValue) :
    lookupKey (insertKey kvs key v) k =
      if key = k then some v else lookupKey kvs k := by
  induction kvs with
  | nil => simp [insertKey, lookupKey]
  | cons hd tl ih =>
    obtain ⟨k0, v0⟩ := hd
    rw [insertKey]
    by_cases h0 : k0 = key
    · rw [if_pos h0]; subst h0
      rw [lookupKey, lookupKey]
      by_cases hk : k0 = k
      · rw [if_pos hk, if_pos hk]
      · rw [if_neg hk, if_neg hk, if_neg hk]
    · rw [if_neg h0]
      rw [lookupKey, lookupKey]
      by_cases hk : k0 = k
      · rw [if_pos hk, if_pos hk, if_neg (fun hkk => h0 (hk.trans hkk.symm))]
      · rw [if_neg hk, if_neg hk, ih]

theorem normalizeVocabItem_obj (kvs : List (String × JsValue)) :
    normalizeVocabItem (.obj kvs) =
      .obj (insertKey kvs "translations"
        (match lookupKey kvs "translations" with
         | some v => if jsTruthy v && jsIsObjectType v then v else .obj []
         | none => .obj [])) := rfl

/-- C10: the vocabulary normalization is a frame on object items: every
key other than `translations` reads back unchanged; an existing
object-valued (or array-valued) `translations` is kept as is; a missing
or non-object `translations` is replaced by the empty object. -/
theorem vocabNormalize_frame_C10 (kvs : List (String × JsValue)) :
    (∀ k : String, k ≠ "translations" →
      jsGet (normalizeVocabItem (.obj kvs)) k = jsGet (.obj kvs) k) ∧
    (∀ t : JsValue, lookupKey kvs "translations" = some t →
      jsIsObjectType t = true →
      jsGet (normalizeVocabItem (.obj kvs)) "translations" = some t) ∧
    (∀ t : JsValue, lookupKey kvs "translations" = some t →
      jsIsObjectType t = false →
      jsGet (normalizeVocabItem (.obj kvs)) "translations" = some (.obj [])) ∧
    (lookupKey kvs "translations" = none →
      jsGet (normalizeVocabItem (.obj kvs)) "translations" = some (.obj [])) := by
  refine ⟨?_, ?_, ?_, ?_⟩
  · intro k hk
    rw [normalizeVocabItem_obj]
    show lookupKey (insertKey kvs "translations" _) k = lookupKey kvs k
    rw [lookupKey_insertKey, if_neg (fun h => hk h.symm)]
  · intro t ht hobj
    have htruthy : jsTruthy t = true := by
      cases t <;> simp_all [jsIsObjectType, jsTruthy]
    rw [normalizeVocabItem_obj]
    show lookupKey (insertKey kvs "translations" _) "translations" = some t
    rw [lookupKey_insertKey, if_pos rfl, ht]
    simp [htruthy, hobj]
  · intro t ht hobj
    rw [normalizeVocabItem_obj]
    show lookupKey (insertKey kvs "translations" _) "translations" = some (.obj [])
    rw [lookupKey_insertKey, if_pos rfl, ht]
    simp [hobj]
  · intro ht
    rw [normalizeVocabItem_obj]
    show lookupKey (insertKey kvs "translations" _) "translations" = some (.obj [])
    rw [lookupKey_insertKey, if_pos rfl, ht]

/-- Witness for C10 at a concrete item: `word` is preserved and the
missing `translations` is injected as the empty object. -/
theorem vocabNormalize_frame_C10_witness :
    jsGet (normalizeVocabItem (.obj [("word", .str "tide")])) "word" =
      some (.str "tide") ∧
    jsGet (normalizeVocabItem (.obj [("word", .str "tide")])) "translations" =
      some (.obj []) := by
  have h := vocabNormalize_frame_C10 [("word", .str "tide")]
  refine ⟨?_, h.2.2.2 rfl⟩
  rw [h.1 "word" (by decide)]
  rfl

theorem lookupKey_insertKey_self (kvs : List (String × JsValue)) (key : String)
    (v : JsValue) : lookupKey (insertKey kvs key v) key = some v := by
  rw [lookupKey_insertKey, if_pos rfl]

theorem normalizeVocabItem_has_translations (it : JsValue) :
    ∃ t, jsGet (normalizeVocabItem it) "translations" = some t := by
  cases it with
  | obj kvs => exact ⟨_, lookupKey_insertKey_self kvs "translations" _⟩
  | arr l => exact ⟨_, lookupKey_insertKey_self (enumFields l) "translations" _⟩
  | null => exact ⟨.obj [], rfl⟩
  | bool b => exact ⟨.obj [], rfl⟩
  | num q => exact ⟨.obj [], rfl⟩
  | str s => exact ⟨.obj [], rfl⟩

theorem vocabularyNormalizedFromContent_200 (content : String)
    (h200 : (vocabularyNormalizedFromContent content).status = 200) :
    ∃ items : List JsValue, jsonParse content = some (.arr items) ∧
      vocabularyNormalizedFromContent content =
        ⟨200, .arr (items.map normalizeVocabItem)⟩ := by
  unfold vocabularyNormalizedFromContent at h200 ⊢
  cases hp : jsonParse content with
  | none => rw [hp] at h200; simp [http502] at h200
  | some v =>
    rw [hp] at h200
    cases v with
    | arr items => exact ⟨items, rfl, rfl⟩
    | null => simp [http502] at h200
    | bool b => simp [http502] at h200
    | num q => simp [http502] at h200
    | str s => simp [http502] at h200
    | obj kvs => simp [http502] at h200

/-- C5, counterexample: with the single cleaned word `["a"]` and the
upstream reply `"[]"` (a valid, truthy JSON array), the part_000
vocabulary endpoint answers 200 with an empty array — length 0, not the
input's length 1 — because the code never compares the reply's length to
the words list. -/
theorem vocabulary_length_cex_C5 :
    (vocabularyEndpointP0 (some [some "a"]) (some "[]")).1 = ⟨200, .arr []⟩ ∧
    (cleanWordsOf [some "a"]).length = 1 ∧
    ([] : List JsValue).length = 0 ∧
    (0 : Nat) ≠ 1 :=
  ⟨rfl, rfl, rfl, by decide⟩

/-- C5, amended: whenever the part_000 vocabulary endpoint answers 200,
its body is the upstream model's parsed array mapped through the
translations normalization — so its length equals the length of the
upstream array (not necessarily that of the cleaned input words), and
every element carries a `translations` key, injected locally when the
upstream item lacks it. -/
theorem vocabulary_response_amended_C5
    (words : Option (List (Option String))) (modelReply : Option String)
    (h200 : (vocabularyEndpointP0 words modelReply).1.status = 200) :
    ∃ items : List JsValue,
      jsonParse (jsTrim (modelReply.getD "")) = some (.arr items) ∧
      (vocabularyEndpointP0 words modelReply).1.body =
        .arr (items.map normalizeVocabItem) ∧
      (items.map normalizeVocabItem).length = items.length ∧
      ∀ x ∈ items.map normalizeVocabItem,
        ∃ t, jsGet x "translations" = some t := by
  cases words with
  | none => simp [vocabularyEndpointP0, http400] at h200
  | some ws =>
    by_cases hws : ws.isEmpty
    · rw [vocabularyEndpointP0, if_pos hws] at h200
      simp [http400] at h200
    · by_cases hcw : (cleanWordsOf ws).isEmpty
      · rw [vocabularyEndpointP0, if_neg hws, if_pos hcw] at h200
        simp [http400] at h200
      · rw [vocabularyEndpointP0, if_neg hws, if_neg hcw] at h200 ⊢
        obtain ⟨items, hp, heq⟩ := vocabularyNormalizedFromContent_200 _ h200
        refine ⟨items, hp, ?_, List.length_map _ _, ?_⟩
        · show (vocabularyNormalizedFromContent (jsTrim (modelReply.getD ""))).body = _
          rw [heq]
        · intro x hx
          obtain ⟨it, _, rfl⟩ := List.mem_map.mp hx
          exact normalizeVocabItem_has_translations it

/-- Witness for the amended C5 theorem: one word, upstream returns a
one-item array without `translations`; the 200 body is that one item with
an empty `translations` injected. -/
theorem vocabulary_response_amended_C5_witness :
    ∃ items : List JsValue,
      jsonParse (jsTrim ((some "[\x7b\"word\":\"sea\"\x7d]" : Option String).getD ""))
        = some (.arr items) ∧
      (vocabularyEndpointP0 (some [some "sea"])
        (some "[\x7b\"word\":\"sea\"\x7d]")).1.body =
        .arr (items.map normalizeVocabItem) ∧
      (items.map normalizeVocabItem).length = items.length ∧
      ∀ x ∈ items.map normalizeVocabItem,
        ∃ t, jsGet x "translations" = some t :=
  vocabulary_response_amended_C5 (some [some "sea"])
    (some "[\x7b\"word\":\"sea\"\x7d]") rfl

theorem jsOrS_empty (b : String) : jsOrS "" b = b := rfl

/-- C2, counterexample: in the part_000 conversation variant — cited by
the claim — a fetch/timeout error inside `extractTedEdContext` is not
recovered: the fetcher has no catch, so the throw propagates to the
handler catch and the request is answered with a request-level HTTP 500
carrying the error message, and no `\x7bok: false, reason:
"fetch_failed"\x7d` marker is ever produced (the fetcher yields an
exception, not a reason-tagged value). -/
theorem conversation_fetch_error_cex_C2 :
    extractTedEdContext simpleParseURL (fun _ => .thrown "network failure")
        "https://ed.ted.com/lessons/abc" = .error "network failure" ∧
    conversationEndpointP0 simpleParseURL (fun _ => .thrown "network failure")
      (fun _ => some "Hello!")
      ⟨some "B1", some "How tides work", some [some "tide"], some [],
        some "https://ed.ted.com/lessons/abc"⟩ =
      .serverError "network failure" ∧
    convResultP0Status (.serverError "network failure") = 500 ∧
    (500 : Nat) ≠ 200 :=
  ⟨rfl, rfl, rfl, by decide⟩

/-- C2, amended (scoped to the part_001 conversation endpoint, whose
fetcher is `fetchTedEdContext`): when the conversation request carries a
lesson URL that passes the guard but the fetch (or the page handling
after it) throws, the context fetcher returns
`ok: false, reason: "fetch_failed"`; the endpoint
still builds the context prompt — which carries both the
could-not-extract notice and the fallback summary text — and, given a
non-empty model reply, returns its normal 200 response with that marker
attached, never a request-level error caused by the fetch. -/
theorem conversation_fetch_error_recovered_C2
    (parseURL : String → Option URL) (transport : String → FetchOutcome)
    (oracle : List ChatMsg → Option String) (req : ConvRequest)
    (msgs : List ConvMsg) (link : String)
    (hmsgs : req.messages = some msgs)
    (hlink : jsOrOptS req.videoUrl (jsOrOptS req.tedUrl "") = link)
    (htrim : jsTrim link = link)
    (hne : link ≠ "")
    (hvalid : isValidTedEdLessonUrl parseURL link = true)
    (hfail : transport link = .fail)
    (hreply : jsTrim ((oracle (chatMessagesP1 (normalizeLevel req.level)
        ⟨link, "", "", "", false, some "fetch_failed"⟩ req.topicResume
        (uniqueVocab req.vocabulary) msgs)).getD "") ≠ "") :
    fetchTedEdContext parseURL transport (some link) =
      (⟨link, "", "", "", false, some "fetch_failed"⟩, 1) ∧
    conversationEndpointP1 parseURL transport oracle req =
      .ok (jsTrim ((oracle (chatMessagesP1 (normalizeLevel req.level)
          ⟨link, "", "", "", false, some "fetch_failed"⟩ req.topicResume
          (uniqueVocab req.vocabulary) msgs)).getD ""))
        ⟨link, "", "", "", false, some "fetch_failed"⟩ ∧
    (∃ pre suf, contextPromptP1 ⟨link, "", "", "", false, some "fetch_failed"⟩
        req.topicResume (uniqueVocab req.vocabulary) =
      pre ++ "Could not extract TED-Ed content. Use the fallback summary below if available."
        ++ suf) ∧
    (∃ pre suf, contextPromptP1 ⟨link, "", "", "", false, some "fetch_failed"⟩
        req.topicResume (uniqueVocab req.vocabulary) =
      pre ++ jsOrS (jsTrim (req.topicResume.getD "")) "No summary provided." ++ suf) := by
  have hemp : link.isEmpty = false := by
    cases h : link.isEmpty with
    | false => rfl
    | true => exact absurd ((String.isEmpty_iff link).mp h) hne
  have hfetch : fetchTedEdContext parseURL transport (some link) =
      (⟨link, "", "", "", false, some "fetch_failed"⟩, 1) := by
    rw [fetchTedEdContext]
    simp only [Option.getD, htrim, hemp, hvalid, Bool.not_true, Bool.or_false, hfail]
    rfl
  have hrE : (jsTrim ((oracle (chatMessagesP1 (normalizeLevel req.level)
      ⟨link, "", "", "", false, some "fetch_failed"⟩ req.topicResume
      (uniqueVocab req.vocabulary) msgs)).getD "")).isEmpty = false := by
    cases h : (jsTrim ((oracle (chatMessagesP1 (normalizeLevel req.level)
        ⟨link, "", "", "", false, some "fetch_failed"⟩ req.topicResume
        (uniqueVocab req.vocabulary) msgs)).getD "")).isEmpty with
    | false => rfl
    | true => exact absurd ((String.isEmpty_iff _).mp h) hreply
  refine ⟨hfetch, ?_, ?_, ?_⟩
  · rw [conversationEndpointP1, hmsgs]
    simp only [hlink, htrim, hfetch]
    rw [if_neg (Bool.eq_false_iff.mp hrE)]
  · refine ⟨"TED-Ed lesson link:\n" ++ jsOrS link "No link provided." ++
      "\n\nTED-Ed context (use this as the main reference):\n",
      "\n\nFallback summary (if needed):\n" ++
        jsOrS (jsTrim (req.topicResume.getD "")) "No summary provided." ++
        "\n\nKey vocabulary:\n" ++
        (if (uniqueVocab req.vocabulary).isEmpty then "(none)"
         else String.intercalate ", " (uniqueVocab req.vocabulary)) ++
        "\n\nIf this is the first turn (no messages yet), start by asking ONE open question about the topic.\nOtherwise, continue the conversation naturally.", ?_⟩
    rw [contextPromptP1]
    simp only [String.append_assoc, jsOrS_empty]
  · refine ⟨"TED-Ed lesson link:\n" ++ jsOrS link "No link provided." ++
      "\n\nTED-Ed context (use this as the main reference):\n" ++
      "Could not extract TED-Ed content. Use the fallback summary below if available." ++
      "\n\nFallback summary (if needed):\n",
      "\n\nKey vocabulary:\n" ++
        (if (uniqueVocab req.vocabulary).isEmpty then "(none)"
         else String.intercalate ", " (uniqueVocab req.vocabulary)) ++
        "\n\nIf this is the first turn (no messages yet), start by asking ONE open question about the topic.\nOtherwise, continue the conversation naturally.", ?_⟩
    rw [contextPromptP1]
    simp only [String.append_assoc, jsOrS_empty]

/-- Witness for C2: a concrete request with a valid lesson URL, a failing
transport and a non-empty model reply yields the normal 200 result
carrying the `fetch_failed` marker. -/
theorem conversation_fetch_error_recovered_C2_witness :
    conversationEndpointP1 simpleParseURL (fun _ => .fail)
      (fun _ => some "Nice topic! What do you think?")
      ⟨some "B1", some "https://ed.ted.com/lessons/abc", none,
        some "How tides work", some [some "tide"], some []⟩ =
      .ok "Nice topic! What do you think?"
        ⟨"https://ed.ted.com/lessons/abc", "", "", "", false,
          some "fetch_failed"⟩ :=
  (conversation_fetch_error_recovered_C2 simpleParseURL (fun _ => .fail)
    (fun _ => some "Nice topic! What do you think?")
    ⟨some "B1", some "https://ed.ted.com/lessons/abc", none,
      some "How tides work", some [some "tide"], some []⟩
    [] "https://ed.ted.com/lessons/abc" rfl rfl rfl (by decide) (by decide)
    rfl (by decide)).2.1
